import Mathlib

/-!
Verification development for the ESAPListen web client.

The definitions below are a shallow embedding of the TypeScript/React
frontend under `src/frontend` and `src/unnamed`.  JavaScript idioms are
embedded explicitly:

* an optional / possibly-`undefined` string field is `Option String`;
* `a || b` on strings is `jsOr` (the empty string is falsy);
* `x || 'default'` is `jsOrString`;
* `b || false` on an optional boolean is `jsOrBool`.

Library functions from `date-fns` (`parseISO` + `isValid`) are modelled
at the granularity the pages use them: a string either parses to a valid
calendar date or it does not (`none` plays the role of JS `Invalid Date`).
-/

/-- JS truthiness of an optional string: `undefined`, `null` and `''`
are falsy, every other string is truthy. -/
def jsTruthy : Option String → Bool
  | none => false
  | some s => !(s == "")

/-- JS `a || b` where both operands are optional strings. -/
def jsOr (a b : Option String) : Option String :=
  if jsTruthy a then a else b

/-- JS `a || d` where `a` is an optional string and `d` a string literal. -/
def jsOrString (a : Option String) (d : String) : String :=
  if jsTruthy a then a.getD d else d

/-- JS `b || false` on an optional boolean field. -/
def jsOrBool (a : Option Bool) (d : Bool) : Bool :=
  match a with
  | none => d
  | some b => b || d

/-- The urgency collapse expression repeated at the read sites
(`src/frontend/app/events/page.tsx:426-429`, `src/unnamed/part_005:389-394`,
`src/frontend/app/tasks/page.tsx:328-331`, `src/unnamed/part_004:696-699`):
`(raw === 'high' || raw === 'medium' || raw === 'yes') ? 'yes' : 'no'`. -/
def collapseUrgency (raw : String) : String :=
  if raw == "high" || raw == "medium" || raw == "yes" then "yes" else "no"

/-- Read-time urgency at the events page
(`src/frontend/app/events/page.tsx:426-427`):
`const rawUrgency = event.urgency || 'no'` followed by the collapse. -/
def eventsPageUrgency (stored : Option String) : String :=
  collapseUrgency (jsOrString stored "no")

/-- Read-time urgency at the notes page (`src/unnamed/part_005:390-391`). -/
def notesPageUrgency (stored : Option String) : String :=
  collapseUrgency (jsOrString stored "no")

/-- Read-time urgency at the tasks page
(`src/frontend/app/tasks/page.tsx:328-329`). -/
def tasksPageUrgency (stored : Option String) : String :=
  collapseUrgency (jsOrString stored "no")

/-- Read-time urgency in the dashboard upcoming-events sidebar
(`src/unnamed/part_004:696-697`). -/
def dashboardUpcomingUrgency (stored : Option String) : String :=
  collapseUrgency (jsOrString stored "no")

/-- Does the character list start with the given pattern? -/
def charStartsWith : List Char → List Char → Bool
  | _, [] => true
  | [], _ :: _ => false
  | a :: as, b :: bs => a == b && charStartsWith as bs

/-- Does the pattern occur somewhere in the character list? -/
def charContainsSub : List Char → List Char → Bool
  | [], pat => pat.isEmpty
  | l@(_ :: rest), pat => charStartsWith l pat || charContainsSub rest pat

/-- Models JS `String.prototype.includes`: `pat` occurs as a contiguous
substring of `s`. -/
def strIncludes (s pat : String) : Bool :=
  charContainsSub s.data pat.data

/-- Models JS `String.prototype.toLowerCase` at the ASCII granularity the
urgency keywords need. -/
def jsToLower (s : String) : String :=
  String.mk (s.data.map Char.toLower)

/-- Result record of `detectUrgency`
(`src/frontend/lib/auth-context.tsx`, second document, lines 88-92). -/
structure UrgencyResult where
  isUrgent : Bool
  level : String
  keywords : List String
deriving DecidableEq

/-- The list `URGENT_KEYWORDS.high` of the urgency detector. -/
def urgentKeywordsHigh : List String :=
  ["urgent", "asap", "critical", "emergency", "immediately", "now", "today"]

/-- The list `URGENT_KEYWORDS.medium` of the urgency detector. -/
def urgentKeywordsMedium : List String :=
  ["important", "priority", "soon", "needed", "required", "deadline"]

/-- Embeds `detectUrgency` (`src/frontend/lib/auth-context.tsx`, second document,
lines 100-134): keyword scan over the lower-cased text; any high keyword
gives level `"high"`, otherwise any medium keyword gives `"medium"`,
otherwise `"low"`; urgent iff level is high or medium. -/
def detectUrgency (text : String) : UrgencyResult :=
  if text = "" then { isUrgent := false, level := "low", keywords := [] }
  else
    let lowerText := jsToLower text
    let highHits := urgentKeywordsHigh.filter (fun k => strIncludes lowerText k)
    let medHits :=
      if highHits.isEmpty then
        urgentKeywordsMedium.filter (fun k => strIncludes lowerText k)
      else []
    let level :=
      if !highHits.isEmpty then "high"
      else if !medHits.isEmpty then "medium"
      else "low"
    { isUrgent := level == "high" || level == "medium"
      level := level
      keywords := highHits ++ medHits }

/-- The parsed `event_data` JSON object attached to an Event-table row.
Fields the read sites look at are listed by name; `extra` carries any
unknown extra fields (the read sites never consult it). -/
structure RawEventData where
  title : Option String
  task : Option String
  date : Option String
  due_date : Option String
  formatted_date : Option String
  description : Option String
  context : Option String
  details : Option String
  category : Option String
  note_type : Option String
  location : Option String
  assignee : Option String
  urgency : Option String
  completed : Option Bool
  extra : List (String × String)
deriving DecidableEq

/-- A `RawEventData` with every field absent, for building concrete records. -/
def emptyEventData : RawEventData :=
  { title := none, task := none, date := none, due_date := none
    formatted_date := none, description := none, context := none
    details := none, category := none, note_type := none, location := none
    assignee := none, urgency := none, completed := none, extra := [] }

/-- One row of the Event table as delivered inside `meeting.events`. -/
structure EventTableItem where
  id : Nat
  event_type : String
  event_data : RawEventData
deriving DecidableEq

/-- Splits a character list on the dash character, keeping empty pieces. -/
def splitOnDash : List Char → List (List Char)
  | [] => [[]]
  | c :: rest =>
    let r := splitOnDash rest
    if c == '-' then [] :: r
    else
      match r with
      | [] => [[c]]
      | h :: t => (c :: h) :: t

/-- Digits of a numeral, most significant first, to the number. -/
def digitsToNat (l : List Char) : Nat :=
  l.foldl (fun acc c => acc * 10 + (c.toNat - 48)) 0

/-- Models `date-fns` `parseISO` at the granularity the pages use it
(`parseISO` followed by `isValid`): a string of the shape `YYYY-MM-DD`
with a plausible month and day parses to a numeric day code, anything
else yields `none`, which plays the role of JS `Invalid Date`. -/
def parseISO (s : String) : Option Nat :=
  match splitOnDash s.data with
  | [y, m, d] =>
    if y.length = 4 && m.length = 2 && d.length = 2 &&
        y.all Char.isDigit && m.all Char.isDigit && d.all Char.isDigit then
      let mn := digitsToNat m
      let dn := digitsToNat d
      if 1 ≤ mn && mn ≤ 12 && 1 ≤ dn && dn ≤ 31 then
        some (digitsToNat y * 10000 + mn * 100 + dn)
      else none
    else none
  | _ => none

/-- The event object the events page pushes into its list
(`src/frontend/app/events/page.tsx:112-127`); `start : Option Nat` is the
parsed date, `none` standing for JS `Invalid Date`. -/
structure PageEvent where
  id : String
  eventItemId : Nat
  title : String
  start : Option Nat
  description : String
  location : Option String
  attendees : List String
  synced : Bool
  completed : Bool
  urgency : Option String
deriving DecidableEq

/-- Per-item extraction of the events page `fetchEvents`
(`src/frontend/app/events/page.tsx:108-129`): a `dated_events` row with a
truthy `date` field is pushed (its date parsed, however that turns out);
a row with a falsy `date` field, or of another type, contributes nothing. -/
def eventsPageExtractItem (it : EventTableItem) : Option PageEvent :=
  if it.event_type = "dated_events" then
    let dateField := it.event_data.date
    if jsTruthy dateField then
      some { id := "event-" ++ toString it.id
             eventItemId := it.id
             title := jsOrString it.event_data.title "Untitled Event"
             start := parseISO (dateField.getD "")
             description := jsOrString it.event_data.description ""
             location := it.event_data.location
             attendees := match it.event_data.assignee with
               | some a => [a]
               | none => []
             synced := true
             completed := jsOrBool it.event_data.completed false
             urgency := it.event_data.urgency }
    else none
  else none

/-- Outcome of the calendar page's per-item extraction; the two `skipped`
constructors correspond to the `console.warn` + `return` branches. -/
inductive CalendarExtract where
  | skippedMissingDate
  | skippedInvalidDate
  | extracted (e : PageEvent)
  | notDatedEvent
deriving DecidableEq

/-- Per-item extraction of the calendar page `fetchEvents`
(`src/frontend/app/calendar/page.tsx:102-139`): a missing `date` field is
skipped with a logged warning; a date that fails `parseISO`/`isValid` is
skipped with a logged warning; otherwise the event is pushed. -/
def calendarExtractItem (it : EventTableItem) : CalendarExtract :=
  if it.event_type = "dated_events" then
    let dateField := it.event_data.date
    if !jsTruthy dateField then .skippedMissingDate
    else
      match parseISO (dateField.getD "") with
      | none => .skippedInvalidDate
      | some d =>
        .extracted
          { id := "event-" ++ toString it.id
            eventItemId := it.id
            title := jsOrString it.event_data.title "Untitled Event"
            start := some d
            description := jsOrString it.event_data.description ""
            location := it.event_data.location
            attendees := match it.event_data.assignee with
              | some a => [a]
              | none => []
            synced := true
            completed := jsOrBool it.event_data.completed false
            urgency := it.event_data.urgency }
  else .notDatedEvent

/-- Field aliasing on the meeting-detail page for dated events
(`src/unnamed/part_007:247`): `event.title || event.task`. -/
def meetingDetailEventTitle (e : RawEventData) : Option String :=
  jsOr e.title e.task

/-- Field aliasing on the meeting-detail page for dated events
(`src/unnamed/part_007:248`): `event.date || event.due_date`. -/
def meetingDetailEventDate (e : RawEventData) : Option String :=
  jsOr e.date e.due_date

/-- Field aliasing on the meeting-detail page for dated events
(`src/unnamed/part_007:250`): `event.description || event.context`. -/
def meetingDetailEventDescription (e : RawEventData) : Option String :=
  jsOr e.description e.context

/-- Field aliasing on the meeting-detail page for notes
(`src/unnamed/part_007:281`): `note.category || note.note_type || 'GENERAL'`. -/
def meetingDetailNoteCategory (e : RawEventData) : String :=
  jsOrString (jsOr e.category e.note_type) "GENERAL"

/-- Field aliasing on the meeting-detail page for notes
(`src/unnamed/part_007:282`): `note.description || note.details`. -/
def meetingDetailNoteDescription (e : RawEventData) : Option String :=
  jsOr e.description e.details

/-- Urgency classification of a note on the meeting-detail page
(`src/unnamed/part_007:283`): `detectUrgency(note.title)` — the stored
urgency field of the note is not consulted. -/
def meetingDetailNoteIsUrgent (e : RawEventData) : Bool :=
  (detectUrgency ((jsOr e.title none).getD "")).isUrgent

/-- Field aliasing on the tasks page
(`src/frontend/app/tasks/page.tsx:82`): `description || details`. -/
def tasksPageDescription (e : RawEventData) : Option String :=
  jsOr e.description e.details

/-- Field aliasing on the tasks page
(`src/frontend/app/tasks/page.tsx:86`): `category || note_type`. -/
def tasksPageCategory (e : RawEventData) : Option String :=
  jsOr e.category e.note_type

/-- Field aliasing in the PDF export
(`src/frontend/lib/export.ts:209`):
`event.formatted_date || event.date || event.due_date`. -/
def exportEventDate (e : RawEventData) : Option String :=
  jsOr e.formatted_date (jsOr e.date e.due_date)

/-- Field aliasing in the PDF export
(`src/frontend/lib/export.ts:210`): `description || context`. -/
def exportEventDescription (e : RawEventData) : Option String :=
  jsOr e.description e.context

/-- Urgency classification of a listed event on the events page as a
function of the whole item (`src/frontend/app/events/page.tsx:426-428`);
only the stored `urgency` field is consulted. -/
def eventsPageItemIsUrgent (e : PageEvent) : Bool :=
  eventsPageUrgency e.urgency == "yes"

/-- An item as the completion-toggle call sites hold it in local state. -/
structure ToggleItem where
  id : Nat
  title : String
  date : String
  description : String
  category : String
  urgency : String
  completed : Bool
deriving DecidableEq

/-- Local-state update of `handleToggleCompletion` on the events page
(`src/frontend/app/events/page.tsx:194-198`):
`events.map(e => e.id === event.id ? { ...e, completed: newState } : e)`. -/
def eventsToggleCompletion (items : List ToggleItem) (targetId : Nat)
    (newCompleted : Bool) : List ToggleItem :=
  items.map fun e =>
    if e.id = targetId then { e with completed := newCompleted } else e

/-- Local-state update of `handleToggleCompletion` on the meeting-detail
page (`src/unnamed/part_007:77-82`), same shape over the notes list. -/
def meetingDetailToggleCompletion (items : List ToggleItem) (targetId : Nat)
    (newCompleted : Bool) : List ToggleItem :=
  items.map fun e =>
    if e.id = targetId then { e with completed := newCompleted } else e

/-- Client-visible meeting state consulted by the calendar-sync trigger. -/
structure MeetingSyncState where
  calendar_connected : Bool
  calendar_synced : Bool
deriving DecidableEq

/-- Outcomes of one invocation of the calendar-sync trigger. -/
inductive SyncOutcome where
  | notConnected
  | alreadySynced
  | synced
  | syncFailed
deriving DecidableEq

/-- Embeds `handleSyncCalendar` (`src/unnamed/part_007:45-69`): no calendar
connection or an already-synced meeting returns before any push request;
otherwise one push request is issued.  The post-success state update
(`loadMeeting` re-reading `calendar_synced = true`) is
modelled from the spec: the Calendar Sync Gate (backend code not under
`src/`) sets `calendar_synced = true` atomically on success and never
resets it on failure.  Returns (outcome, new state, pushes issued). -/
def handleSyncCalendar (st : MeetingSyncState) (pushSucceeds : Bool) :
    SyncOutcome × MeetingSyncState × Nat :=
  if !st.calendar_connected then (.notConnected, st, 0)
  else if st.calendar_synced then (.alreadySynced, st, 0)
  else if pushSucceeds then
    (.synced, { st with calendar_synced := true }, 1)
  else (.syncFailed, st, 1)

/-- Two sequential invocations of the sync trigger; the second sees the
state the first left behind.  Returns (first outcome, second outcome,
total pushes issued). -/
def syncTwice (st : MeetingSyncState) (push1 push2 : Bool) :
    SyncOutcome × SyncOutcome × Nat :=
  let r1 := handleSyncCalendar st push1
  let r2 := handleSyncCalendar r1.2.1 push2
  (r1.1, r2.1, r1.2.2 + r2.2.2)

/-- The processing configuration the dashboard submits
(`src/frontend/lib/config-context.tsx`); only the fields the upload
guards consult are carried. -/
structure ProcessingConfig where
  role : String
  user_input : String
  custom_field_only : Bool
deriving DecidableEq

/-- Models JS `String.prototype.trim`: strip leading and trailing
whitespace. -/
def jsTrim (s : String) : String :=
  String.mk (((s.data.dropWhile Char.isWhitespace).reverse.dropWhile
    Char.isWhitespace).reverse)

/-- Observable outcome of a submit attempt on the dashboard. -/
inductive UploadOutcome where
  | noFile
  | validationAlert
  | uploadIssued
deriving DecidableEq

/-- Embeds `handleUpload` (`src/unnamed/part_004:308-332`): returns without doing
anything if no file is selected; with `custom_field_only` set and a
whitespace-only `user_input` it raises the validation alert and returns
before `meetingsAPI.uploadAudio` is called; otherwise it issues the
upload request.  Returns (outcome, number of upload requests issued). -/
def handleUpload (file : Option String) (cfg : ProcessingConfig) :
    UploadOutcome × Nat :=
  match file with
  | none => (.noFile, 0)
  | some _ =>
    if cfg.custom_field_only && jsTrim cfg.user_input == "" then
      (.validationAlert, 0)
    else (.uploadIssued, 1)

/-- Embeds `uploadRecording` (`src/unnamed/part_004:269-300`): identical guard
over the recorded-audio blob. -/
def uploadRecording (recordedAudio : Option String) (cfg : ProcessingConfig) :
    UploadOutcome × Nat :=
  match recordedAudio with
  | none => (.noFile, 0)
  | some _ =>
    if cfg.custom_field_only && jsTrim cfg.user_input == "" then
      (.validationAlert, 0)
    else (.uploadIssued, 1)

/-- Modelled from the spec: stage weights of the progress computation
(`overall_progress is a weighted sum over completed/in-progress stages
(weights reflect typical wall-clock cost, e.g., transcription heavier
than VAD)`); the orchestrator is backend code not under `src/`.  One
weight per stage vad, enhancement, transcription, extraction, calendar. -/
def stageWeights : List Nat := [10, 15, 40, 25, 10]

/-- Modelled from the spec: the per-job progress state the orchestrator
persists — how many stages have completed and the numeric progress hint
(0-100) of the stage currently in progress. -/
structure JobProgressState where
  completedStages : Nat
  currentProgress : Nat
deriving DecidableEq

/-- Modelled from the spec: `overall_progress` as the weighted sum of the
completed stages plus the weighted fraction of the in-progress stage. -/
def overallProgress (s : JobProgressState) : Nat :=
  (stageWeights.take s.completedStages).sum +
    stageWeights.getD s.completedStages 0 * min s.currentProgress 100 / 100

/-- Modelled from the spec: one orchestrator transition on a non-terminal
job — either the current stage's progress hint advances, or the current
stage completes and the next one starts at zero. -/
inductive JobStep : JobProgressState → JobProgressState → Prop
  | advance (k p p' : Nat) : p ≤ p' → JobStep ⟨k, p⟩ ⟨k, p'⟩
  | complete (k p : Nat) : JobStep ⟨k, p⟩ ⟨k + 1, 0⟩

/-- Stated from the spec's words, for comparison only (the write-time
canonicalization claim): reading an artifact whose urgency is already
stored in the canonical two-valued domain requires no legacy collapse —
the value is urgent exactly when the stored field is the canonical
`"yes"`, absence defaulting to normal. -/
def specCanonicalRead (stored : Option String) : String :=
  if stored = some "yes" then "yes" else "no"

/-- The client-side poll update (`src/unnamed/part_004:338`):
`setProgress(statusData.overall_progress)` — the displayed value is
replaced by the polled `overall_progress`, unmodified. -/
def pollTick (_displayedBefore : Nat) (polledOverall : Nat) : Nat :=
  polledOverall

/-- A concrete `dated_events` row whose `date` field is present but does
not parse as a calendar date. -/
def badDateItem : EventTableItem :=
  { id := 7, event_type := "dated_events"
    event_data := { emptyEventData with date := some "not-a-date" } }

/-- A concrete `dated_events` row whose `date` field is absent. -/
def missingDateItem : EventTableItem :=
  { id := 8, event_type := "dated_events", event_data := emptyEventData }

/-- A concrete note whose title contains an urgency keyword and whose
stored urgency field says normal. -/
def urgentTitledNote : RawEventData :=
  { emptyEventData with
    title := some "urgent: finalize budget"
    urgency := some "no" }

/-- A concrete note with a plain title and the same stored urgency field
as `urgentTitledNote`. -/
def plainTitledNote : RawEventData :=
  { emptyEventData with
    title := some "weekly recap"
    urgency := some "no" }

/-- A concrete note whose stored urgency field is absent and whose title
contains an urgency keyword. -/
def urgencyAbsentKeywordNote : RawEventData :=
  { emptyEventData with title := some "urgent: finalize budget" }

/-- A concrete note whose stored urgency field is absent and whose title
contains no urgency keyword. -/
def urgencyAbsentPlainNote : RawEventData :=
  { emptyEventData with title := some "weekly recap" }

/-- A concrete listed event with stored urgency `"yes"`. -/
def samplePageEventA : PageEvent :=
  { id := "event-1", eventItemId := 1, title := "alpha"
    start := some 20240101, description := "", location := none
    attendees := [], synced := true, completed := false
    urgency := some "yes" }

/-- A concrete listed event with a different title and description but the
same stored urgency as `samplePageEventA`. -/
def samplePageEventB : PageEvent :=
  { id := "event-2", eventItemId := 2, title := "beta"
    start := some 20240202, description := "completely different text"
    location := none, attendees := [], synced := true, completed := false
    urgency := some "yes" }

theorem jsOrString_eq (a : Option String) (d : String) :
    jsOrString a d = match a with
      | none => d
      | some s => if s = "" then d else s := by
  cases a with
  | none => rfl
  | some s =>
    by_cases h : s = "" <;>
      simp [jsOrString, jsTruthy, Option.getD, h]

theorem collapseUrgency_eq_yes (raw : String) :
    collapseUrgency raw = "yes" ↔ raw = "high" ∨ raw = "medium" ∨ raw = "yes" := by
  unfold collapseUrgency
  by_cases h1 : raw = "high"
  · simp [h1]
  · by_cases h2 : raw = "medium"
    · simp [h2]
    · by_cases h3 : raw = "yes"
      · simp [h3]
      · simp [h1, h2, h3]

theorem eventsPageUrgency_spec (stored : Option String) :
    eventsPageUrgency stored = "yes" ↔
      stored = some "high" ∨ stored = some "medium" ∨ stored = some "yes" := by
  unfold eventsPageUrgency
  rw [collapseUrgency_eq_yes, jsOrString_eq]
  cases stored with
  | none => simp
  | some s =>
    by_cases h : s = "" <;> simp [h]

theorem urgency_sites_agree (stored : Option String) :
    notesPageUrgency stored = eventsPageUrgency stored ∧
    tasksPageUrgency stored = eventsPageUrgency stored ∧
    dashboardUpcomingUrgency stored = eventsPageUrgency stored := by
  exact ⟨rfl, rfl, rfl⟩

/-- Claim C1: at the read sites, the urgency read back is urgent (`"yes"`)
iff the raw stored urgency value is `"high"`, `"medium"` or `"yes"`, and
normal (`"no"`) otherwise; in particular records stored with `"medium"` and
`"yes"` read back urgent, and records stored with `"low"` or `"no"` read
back normal, at both the events page and the notes page. -/
theorem urgency_collapse_rule :
    (∀ stored : Option String,
      (eventsPageUrgency stored = "yes" ↔
        stored = some "high" ∨ stored = some "medium" ∨ stored = some "yes") ∧
      (eventsPageUrgency stored ≠ "yes" → eventsPageUrgency stored = "no") ∧
      notesPageUrgency stored = eventsPageUrgency stored) ∧
    eventsPageUrgency (some "medium") = "yes" ∧
    eventsPageUrgency (some "yes") = "yes" ∧
    eventsPageUrgency (some "low") = "no" ∧
    eventsPageUrgency (some "no") = "no" ∧
    notesPageUrgency (some "medium") = "yes" ∧
    notesPageUrgency (some "yes") = "yes" ∧
    notesPageUrgency (some "low") = "no" ∧
    notesPageUrgency (some "no") = "no" := by
  refine ⟨fun stored => ⟨eventsPageUrgency_spec stored, ?_, rfl⟩,
    by decide, by decide, by decide, by decide,
    by decide, by decide, by decide, by decide⟩
  intro h
  unfold eventsPageUrgency collapseUrgency at *
  by_cases hc : (jsOrString stored "no") == "high"
      || (jsOrString stored "no") == "medium"
      || (jsOrString stored "no") == "yes"
  · simp [hc] at h
  · simp [hc]

/-- Claim C10 counterexample: the urgency classification of an item with
an absent stored urgency field is not normal at every read site — at the
meeting-detail notes site a note with no urgency field at all but an
urgency keyword in its title is displayed urgent. -/
theorem missing_urgency_default_counterexample :
    urgencyAbsentKeywordNote.urgency = none ∧
    meetingDetailNoteIsUrgent urgencyAbsentKeywordNote = true := by
  decide

/-- Claim C10 (amended): an item whose stored urgency field is absent
(`undefined` / `null`, i.e. `none`) or the empty string is classified
normal (`"no"`) at the read sites that classify from the stored urgency
field — the events page, the tasks page, the dashboard sidebar and the
notes list; the meeting-detail notes site instead classifies from the
title keyword heuristic, so an urgency-absent note reads urgent or
normal according to its title text. -/
theorem missing_urgency_defaults_normal :
    eventsPageUrgency none = "no" ∧
    eventsPageUrgency (some "") = "no" ∧
    tasksPageUrgency none = "no" ∧
    tasksPageUrgency (some "") = "no" ∧
    dashboardUpcomingUrgency none = "no" ∧
    dashboardUpcomingUrgency (some "") = "no" ∧
    notesPageUrgency none = "no" ∧
    notesPageUrgency (some "") = "no" ∧
    meetingDetailNoteIsUrgent urgencyAbsentKeywordNote = true ∧
    meetingDetailNoteIsUrgent urgencyAbsentPlainNote = false := by
  decide

theorem uploadRecording_eq_handleUpload (a : Option String)
    (cfg : ProcessingConfig) : uploadRecording a cfg = handleUpload a cfg := by
  cases a <;> rfl

/-- Claim C4: with `custom_field_only` set and a `user_input` that is empty
or whitespace-only, submitting a selected file (or a recorded blob) raises
the validation alert and returns before any upload request is issued —
zero upload requests, hence no job is created and no stage runs. -/
theorem custom_field_only_fail_fast (file rec : String) (cfg : ProcessingConfig)
    (hc : cfg.custom_field_only = true) (hu : jsTrim cfg.user_input = "") :
    handleUpload (some file) cfg = (.validationAlert, 0) ∧
    uploadRecording (some rec) cfg = (.validationAlert, 0) := by
  constructor <;> simp [handleUpload, uploadRecording, hc, hu]

theorem custom_field_only_fail_fast_witness :
    handleUpload (some "meeting.mp3")
        { role := "Custom", user_input := "   ", custom_field_only := true }
      = (.validationAlert, 0) ∧
    uploadRecording (some "recording.webm")
        { role := "Custom", user_input := "   ", custom_field_only := true }
      = (.validationAlert, 0) :=
  custom_field_only_fail_fast "meeting.mp3" "recording.webm"
    { role := "Custom", user_input := "   ", custom_field_only := true }
    rfl (by decide)

/-- Claim C9: the toggle-completion update maps each item whose id differs
from the target to itself, and the item carrying the target id to a copy
differing only in `completed`; id, title, date, description, category and
urgency of every item are preserved.  The meeting-detail notes toggle is
the identical update. -/
theorem toggle_completion_frame (items : List ToggleItem) (targetId : Nat)
    (b : Bool) :
    meetingDetailToggleCompletion items targetId b
        = eventsToggleCompletion items targetId b ∧
    ∃ f, eventsToggleCompletion items targetId b = items.map f ∧
      (∀ e, e.id ≠ targetId → f e = e) ∧
      (∀ e, e.id = targetId → f e = { e with completed := b }) ∧
      (∀ e, (f e).id = e.id ∧ (f e).title = e.title ∧ (f e).date = e.date ∧
        (f e).description = e.description ∧ (f e).category = e.category ∧
        (f e).urgency = e.urgency) := by
  refine ⟨rfl,
    fun e => if e.id = targetId then { e with completed := b } else e,
    rfl, ?_, ?_, ?_⟩
  · intro e h
    simp [h]
  · intro e h
    simp [h]
  · intro e
    by_cases h : e.id = targetId <;> simp [h]

theorem toggle_completion_frame_witness :
    meetingDetailToggleCompletion
        [{ id := 1, title := "a", date := "2024-01-01", description := "p",
           category := "ACTION", urgency := "yes", completed := false },
         { id := 2, title := "b", date := "2024-02-02", description := "q",
           category := "GENERAL", urgency := "no", completed := false }] 2 true
      = eventsToggleCompletion
        [{ id := 1, title := "a", date := "2024-01-01", description := "p",
           category := "ACTION", urgency := "yes", completed := false },
         { id := 2, title := "b", date := "2024-02-02", description := "q",
           category := "GENERAL", urgency := "no", completed := false }] 2 true ∧
    eventsToggleCompletion
        [{ id := 1, title := "a", date := "2024-01-01", description := "p",
           category := "ACTION", urgency := "yes", completed := false },
         { id := 2, title := "b", date := "2024-02-02", description := "q",
           category := "GENERAL", urgency := "no", completed := false }] 2 true
      = [{ id := 1, title := "a", date := "2024-01-01", description := "p",
           category := "ACTION", urgency := "yes", completed := false },
         { id := 2, title := "b", date := "2024-02-02", description := "q",
           category := "GENERAL", urgency := "no", completed := true }] := by
  obtain ⟨hsame, f, hmap, hne, heq, -⟩ := toggle_completion_frame
    [{ id := 1, title := "a", date := "2024-01-01", description := "p",
       category := "ACTION", urgency := "yes", completed := false },
     { id := 2, title := "b", date := "2024-02-02", description := "q",
       category := "GENERAL", urgency := "no", completed := false }] 2 true
  refine ⟨hsame, ?_⟩
  rw [hmap]
  simp only [List.map_cons, List.map_nil]
  rw [hne _ (by decide), heq _ rfl]

/-- Claim C3 counterexample: a meeting whose `calendar_synced` flag is
true but whose user calendar is disconnected gets the not-connected
outcome from `handleSyncCalendar`, not "already synced" (the connection
guard fires first) — though still no push request is issued. -/
theorem sync_already_synced_counterexample :
    handleSyncCalendar { calendar_connected := false, calendar_synced := true } true
      = (.notConnected, { calendar_connected := false, calendar_synced := true }, 0) ∧
    (SyncOutcome.notConnected ≠ SyncOutcome.alreadySynced) := by
  decide

/-- Claim C3 (amended): for a meeting whose `calendar_synced` flag is true
the sync trigger issues no push request, and reports "already synced"
whenever the user's calendar is connected; consequently, starting from a
connected, not-yet-synced meeting whose first push succeeds, two
sequential invocations issue exactly one push in total and the second is
rejected as already synced, and starting from a connected, already-synced
meeting they issue none. -/
theorem sync_idempotency_guard (st : MeetingSyncState) (p p2 : Bool)
    (hconn : st.calendar_connected = true) :
    (st.calendar_synced = true →
      handleSyncCalendar st p = (.alreadySynced, st, 0) ∧
      syncTwice st p p2 = (.alreadySynced, .alreadySynced, 0)) ∧
    (st.calendar_synced = false → p = true →
      syncTwice st p p2 =
        (.synced, .alreadySynced, 1)) := by
  obtain ⟨c, s⟩ := st
  subst hconn
  constructor
  · intro hsy
    subst hsy
    exact ⟨rfl, rfl⟩
  · intro hsy hp
    subst hsy hp
    rfl

theorem sync_idempotency_guard_witness :
    handleSyncCalendar { calendar_connected := true, calendar_synced := true } false
      = (.alreadySynced, { calendar_connected := true, calendar_synced := true }, 0) ∧
    syncTwice { calendar_connected := true, calendar_synced := false } true false
      = (.synced, .alreadySynced, 1) :=
  ⟨((sync_idempotency_guard
      { calendar_connected := true, calendar_synced := true } false false rfl).1 rfl).1,
   ((sync_idempotency_guard
      { calendar_connected := true, calendar_synced := false } true false rfl).2 rfl rfl)⟩

/-- Claim C8: when the canonical field is absent the historical alias is
used in its place — the resolved date is `due_date` when `date` is absent
(on the meeting-detail page, and in the PDF export when `formatted_date`
is also absent), the resolved description is `context` (meeting-detail
events, export) or `details` (tasks page, meeting-detail notes) when
`description` is absent, and the resolved category is `note_type` when
`category` is absent (with the meeting-detail notes falling back to
`"GENERAL"` only when both are absent); unknown extra fields never affect
any of the resolutions and cause no error. -/
theorem field_aliasing (e : RawEventData)
    (hd : jsTruthy e.date = false)
    (hdesc : jsTruthy e.description = false)
    (hcat : jsTruthy e.category = false)
    (hfmt : jsTruthy e.formatted_date = false) :
    meetingDetailEventDate e = e.due_date ∧
    exportEventDate e = e.due_date ∧
    meetingDetailEventDescription e = e.context ∧
    exportEventDescription e = e.context ∧
    meetingDetailNoteDescription e = e.details ∧
    tasksPageDescription e = e.details ∧
    tasksPageCategory e = e.note_type ∧
    meetingDetailNoteCategory e = jsOrString e.note_type "GENERAL" ∧
    ∀ (r : RawEventData) (xs : List (String × String)),
      meetingDetailEventDate { r with extra := xs } = meetingDetailEventDate r ∧
      exportEventDate { r with extra := xs } = exportEventDate r ∧
      meetingDetailEventDescription { r with extra := xs }
        = meetingDetailEventDescription r ∧
      meetingDetailNoteDescription { r with extra := xs }
        = meetingDetailNoteDescription r ∧
      tasksPageDescription { r with extra := xs } = tasksPageDescription r ∧
      tasksPageCategory { r with extra := xs } = tasksPageCategory r ∧
      meetingDetailNoteCategory { r with extra := xs }
        = meetingDetailNoteCategory r := by
  refine ⟨?_, ?_, ?_, ?_, ?_, ?_, ?_, ?_, fun r xs => ⟨rfl, rfl, rfl, rfl, rfl, rfl, rfl⟩⟩ <;>
    simp [meetingDetailEventDate, exportEventDate, meetingDetailEventDescription,
      exportEventDescription, meetingDetailNoteDescription, tasksPageDescription,
      tasksPageCategory, meetingDetailNoteCategory, jsOr, hd, hdesc, hcat, hfmt]

theorem field_aliasing_witness :
    meetingDetailEventDate
        { emptyEventData with
          due_date := some "2024-05-01"
          context := some "ctx"
          details := some "dtl"
          note_type := some "ACTION" }
      = some "2024-05-01" ∧
    tasksPageCategory
        { emptyEventData with
          due_date := some "2024-05-01"
          context := some "ctx"
          details := some "dtl"
          note_type := some "ACTION" }
      = some "ACTION" :=
  ⟨(field_aliasing
      { emptyEventData with
        due_date := some "2024-05-01"
        context := some "ctx"
        details := some "dtl"
        note_type := some "ACTION" } rfl rfl rfl rfl).1,
   (field_aliasing
      { emptyEventData with
        due_date := some "2024-05-01"
        context := some "ctx"
        details := some "dtl"
        note_type := some "ACTION" } rfl rfl rfl rfl).2.2.2.2.2.2.1⟩

theorem urgency_collapse_rule_witness :
    eventsPageUrgency (some "medium") = "yes" ∧
    notesPageUrgency (some "low") = eventsPageUrgency (some "low") :=
  ⟨urgency_collapse_rule.2.1, (urgency_collapse_rule.1 (some "low")).2.2⟩

/-- Claim C2 counterexample: a `dated_events` row whose date is present
but unparseable is skipped by the calendar page (dropped, with only a
logged warning — no note is produced anywhere) while the events page
keeps it in the dated-events list with an invalid parsed date; a row with
a missing date is dropped by the events page without any warning. -/
theorem unparseable_date_demotion_counterexample :
    calendarExtractItem badDateItem = .skippedInvalidDate ∧
    (eventsPageExtractItem badDateItem).map PageEvent.start = some none ∧
    eventsPageExtractItem missingDateItem = none := by
  decide

/-- Claim C2 (amended): a `dated_events` row whose date field is absent is
excluded from the events page silently and from the calendar page with a
logged warning; a row whose date is present but unparseable is excluded
from the calendar page with a logged warning and kept by the events page
as a dated event with an invalid date.  In no case is the item demoted to
the notes collection (the per-item extraction has no notes output). -/
theorem unparseable_date_demotion_amended (it : EventTableItem)
    (hty : it.event_type = "dated_events") :
    (jsTruthy it.event_data.date = false →
      eventsPageExtractItem it = none ∧
      calendarExtractItem it = .skippedMissingDate) ∧
    (jsTruthy it.event_data.date = true →
      parseISO (it.event_data.date.getD "") = none →
      calendarExtractItem it = .skippedInvalidDate ∧
      (eventsPageExtractItem it).map PageEvent.start = some none) := by
  constructor
  · intro hf
    unfold eventsPageExtractItem calendarExtractItem
    simp [hty, hf]
  · intro ht hp
    refine ⟨?_, ?_⟩
    · unfold calendarExtractItem
      simp [hty, ht, hp]
    · unfold eventsPageExtractItem
      simp [hty, ht, hp]

theorem unparseable_date_demotion_amended_witness :
    calendarExtractItem missingDateItem = .skippedMissingDate ∧
    calendarExtractItem badDateItem = .skippedInvalidDate :=
  ⟨((unparseable_date_demotion_amended missingDateItem rfl).1 (by decide)).2,
   ((unparseable_date_demotion_amended badDateItem rfl).2 (by decide)
      (by decide)).1⟩

/-- Claim C5 counterexample: the read sites map the legacy three-level
value `"medium"` (and `"high"`) to urgent, i.e. they reproduce the
three-valued compatibility mapping at read/display time, whereas reading
a canonically stored two-valued record would classify `"medium"` as
normal — so normalization is not applied once at write time with readers
left canonical. -/
theorem write_time_canonicalization_counterexample :
    eventsPageUrgency (some "medium") = "yes" ∧
    tasksPageUrgency (some "medium") = "yes" ∧
    notesPageUrgency (some "high") = "yes" ∧
    dashboardUpcomingUrgency (some "high") = "yes" ∧
    specCanonicalRead (some "medium") = "no" ∧
    eventsPageUrgency (some "medium") ≠ specCanonicalRead (some "medium") := by
  decide

/-- Claim C5 (amended): urgency normalization is performed at read/display
time — the events, notes, tasks and dashboard read sites each reproduce
the identical three-valued compatibility collapse, classifying a record
as urgent exactly when its stored value is `"high"`, `"medium"` or
`"yes"`; stored records are not guaranteed canonical. -/
theorem urgency_normalized_at_read_sites (stored : Option String) :
    notesPageUrgency stored = eventsPageUrgency stored ∧
    tasksPageUrgency stored = eventsPageUrgency stored ∧
    dashboardUpcomingUrgency stored = eventsPageUrgency stored ∧
    (eventsPageUrgency stored = "yes" ↔
      stored = some "high" ∨ stored = some "medium" ∨ stored = some "yes") :=
  ⟨rfl, rfl, rfl, eventsPageUrgency_spec stored⟩

theorem urgency_normalized_at_read_sites_witness :
    tasksPageUrgency (some "high") = eventsPageUrgency (some "high") ∧
    eventsPageUrgency (some "high") = "yes" :=
  ⟨(urgency_normalized_at_read_sites (some "high")).2.1,
   (urgency_normalized_at_read_sites (some "high")).2.2.2.mpr (Or.inl rfl)⟩

/-- Claim C6 counterexample: two notes with identical stored urgency
fields (`"no"`) are classified differently on the meeting-detail page,
because that site derives urgency from the title text via the keyword
heuristic `detectUrgency` — the note titled with the word "urgent" is
shown urgent, the plainly titled one is not. -/
theorem urgency_noninterference_counterexample :
    urgentTitledNote.urgency = plainTitledNote.urgency ∧
    meetingDetailNoteIsUrgent urgentTitledNote = true ∧
    meetingDetailNoteIsUrgent plainTitledNote = false := by
  decide

/-- Claim C6 (amended): at the read sites that classify from the stored
urgency field (events page and the identically-coded tasks/notes/
dashboard sites), items with identical stored urgency values receive
identical classifications whatever their title or description; but the
meeting-detail page classifies notes by the keyword heuristic
`detectUrgency` over the title, so notes with identical stored urgency
can be displayed differently. -/
theorem urgency_noninterference_amended :
    (∀ a b : PageEvent, a.urgency = b.urgency →
      eventsPageItemIsUrgent a = eventsPageItemIsUrgent b) ∧
    (∃ a b : RawEventData, a.urgency = b.urgency ∧
      meetingDetailNoteIsUrgent a ≠ meetingDetailNoteIsUrgent b) := by
  constructor
  · intro a b h
    simp [eventsPageItemIsUrgent, h]
  · exact ⟨urgentTitledNote, plainTitledNote, rfl, by decide⟩

theorem urgency_noninterference_amended_witness :
    eventsPageItemIsUrgent samplePageEventA
      = eventsPageItemIsUrgent samplePageEventB :=
  urgency_noninterference_amended.1 samplePageEventA samplePageEventB rfl

theorem weighted_fraction_le (w p : Nat) : w * min p 100 / 100 ≤ w := by
  calc w * min p 100 / 100
      ≤ w * 100 / 100 :=
        Nat.div_le_div_right (Nat.mul_le_mul_left w (Nat.min_le_right p 100))
    _ = w := Nat.mul_div_cancel w (by norm_num)

theorem weights_take_succ (k : Nat) :
    (stageWeights.take (k + 1)).sum
      = (stageWeights.take k).sum + stageWeights.getD k 0 := by
  match k with
  | 0 => rfl
  | 1 => rfl
  | 2 => rfl
  | 3 => rfl
  | 4 => rfl
  | n + 5 =>
    have h1 : stageWeights.take (n + 5 + 1) = stageWeights :=
      List.take_of_length_le (by simp [stageWeights])
    have h2 : stageWeights.take (n + 5) = stageWeights :=
      List.take_of_length_le (by simp [stageWeights])
    have h3 : stageWeights.getD (n + 5) 0 = 0 := rfl
    rw [h1, h2, h3, Nat.add_zero]

theorem jobStep_progress_mono {s s' : JobProgressState} (h : JobStep s s') :
    overallProgress s ≤ overallProgress s' := by
  cases h with
  | advance k p p' hpp =>
    unfold overallProgress
    apply Nat.add_le_add_left
    apply Nat.div_le_div_right
    exact Nat.mul_le_mul_left _ (min_le_min hpp le_rfl)
  | complete k p =>
    unfold overallProgress
    simp only [Nat.min_self, Nat.zero_min, Nat.mul_zero, Nat.zero_div,
      Nat.add_zero]
    rw [weights_take_succ]
    have hle := weighted_fraction_le (stageWeights.getD k 0) p
    omega

theorem jobRun_progress_mono {s s' : JobProgressState}
    (h : Relation.ReflTransGen JobStep s s') :
    overallProgress s ≤ overallProgress s' := by
  induction h with
  | refl => exact le_rfl
  | tail _ hstep ih => exact le_trans ih (jobStep_progress_mono hstep)

/-- Claim C7: along any sequence of polled snapshots of one non-terminal
job, consecutive snapshots being related by zero or more orchestrator
steps, the polled `overall_progress` values are non-decreasing; and the
client's poll handler displays exactly the polled value
(`setProgress(statusData.overall_progress)`), so the displayed sequence
is the same non-decreasing sequence.  (The orchestrator's progress
computation is modelled from the spec; the poll handler is src code.) -/
theorem progress_monotone_across_polls (states : List JobProgressState)
    (h : states.Chain' fun a b => Relation.ReflTransGen JobStep a b) :
    ((states.map overallProgress).Chain' (· ≤ ·)) ∧
    ∀ prev polled, pollTick prev polled = polled := by
  refine ⟨?_, fun _ _ => rfl⟩
  rw [List.chain'_map]
  exact h.imp fun a b hab => jobRun_progress_mono hab

theorem progress_monotone_across_polls_witness :
    ((([{ completedStages := 0, currentProgress := 0 },
        { completedStages := 0, currentProgress := 50 },
        { completedStages := 1, currentProgress := 0 }] :
          List JobProgressState).map overallProgress).Chain' (· ≤ ·)) :=
  (progress_monotone_across_polls
    [{ completedStages := 0, currentProgress := 0 },
     { completedStages := 0, currentProgress := 50 },
     { completedStages := 1, currentProgress := 0 }]
    (List.chain'_cons.2
      ⟨Relation.ReflTransGen.single (JobStep.advance 0 0 50 (by omega)),
       List.chain'_cons.2
         ⟨Relation.ReflTransGen.single (JobStep.complete 0 50),
          List.chain'_singleton _⟩⟩)).1
